import Mathlib

/-!
Verification development for the `recursive-verifier` circuit type layer
(`app/circuit/types.go`) of ProveKit.

The visible source consists of Go struct declarations for the data model of
an in-circuit WHIR verifier.  We embed that layer at two levels:

1. a *metadata* level: the Go struct declarations themselves (field names,
   Go types, JSON tags), transcribed field by field from `types.go`, together
   with the relevant pieces of Go semantics (exportedness is determined by
   the case of a field name's first letter; `encoding/json` populates only
   exported fields);
2. a *value* level: Lean structures whose inhabitants correspond to runtime
   values of the Go types, with machine integers as `Nat` bounded by the
   width of the Go type.

Operations the spec describes whose code is not in the visible source
(validation checks, transcript replay, circuit assembly) are modelled from
the spec, each marked `Modelled from the spec:` in its doc comment.
-/

namespace ProveKit.Circuit

/-- The Go types occurring in `app/circuit/types.go`.  `named` refers to
another declared struct by name; `generic` is a generic instantiation such as
`MultiPath[KeccakDigest]`. -/
inductive GoType where
  | goUint8 : GoType
  | goUint64 : GoType
  | goInt : GoType
  | goString : GoType
  | frontendVariable : GoType
  | uintsU8 : GoType
  | uintsU64 : GoType
  | array : Nat → GoType → GoType
  | slice : GoType → GoType
  | named : String → GoType
  | generic : String → GoType → GoType
deriving DecidableEq, Repr

/-- One field of a Go struct declaration: its name, its Go type, and its
JSON tag if the declaration carries one. -/
structure GoField where
  name : String
  type : GoType
  jsonTag : Option String
deriving DecidableEq, Repr

/-- Go semantics: an identifier is exported iff its first letter is upper
case. -/
def goExported (name : String) : Bool :=
  match name.toList with
  | [] => false
  | c :: _ => c.isUpper

/-- Go semantics: `encoding/json` can populate (decode into) only the
exported fields of a struct; likewise only exported fields are serialized. -/
def jsonSettableFields (fs : List GoField) : List GoField :=
  fs.filter fun f => goExported f.name

/-- Whether a Go type is an in-circuit variable type: gnark
`frontend.Variable` or the `uints` wrappers `U8`/`U64` built from it. -/
def isCircuitVarType : GoType → Bool
  | .frontendVariable => true
  | .uintsU8 => true
  | .uintsU64 => true
  | _ => false

/-- Whether a Go type contains an in-circuit variable type anywhere. -/
def containsCircuitVar : GoType → Bool
  | .array _ t => containsCircuitVar t
  | .slice t => containsCircuitVar t
  | .generic _ t => containsCircuitVar t
  | t => isCircuitVarType t

/-- Whether a Go type mentions the struct name `s` anywhere. -/
def mentionsNamed (s : String) : GoType → Bool
  | .named n => n == s
  | .array _ t => mentionsNamed s t
  | .slice t => mentionsNamed s t
  | .generic n t => n == s || mentionsNamed s t
  | _ => false

/-- The bit width of a fixed-width Go integer type. -/
def goBitWidth : GoType → Option Nat
  | .goUint8 => some 8
  | .goUint64 => some 64
  | _ => none

/-- `type KeccakDigest struct { KeccakDigest [32]uint8 }`. -/
def KeccakDigestFields : List GoField :=
  [⟨"KeccakDigest", .array 32 .goUint8, none⟩]

/-- `type Fp256 struct { Limbs [4]uint64 }`. -/
def Fp256Fields : List GoField :=
  [⟨"Limbs", .array 4 .goUint64, none⟩]

/-- `type MultiPath[Digest any] struct { ... }` (the type parameter is
transcribed as `named "Digest"`). -/
def MultiPathFields : List GoField :=
  [⟨"LeafSiblingHashes", .slice (.named "Digest"), none⟩,
   ⟨"AuthPathsPrefixLengths", .slice .goUint64, none⟩,
   ⟨"AuthPathsSuffixes", .slice (.slice (.named "Digest")), none⟩,
   ⟨"LeafIndexes", .slice .goUint64, none⟩]

/-- `type WHIRConfig struct { ... }` with its JSON tags. -/
def WHIRConfigFields : List GoField :=
  [⟨"NRounds", .goInt, some "n_rounds"⟩,
   ⟨"Rate", .goInt, some "rate"⟩,
   ⟨"NVars", .goInt, some "n_vars"⟩,
   ⟨"FoldingFactor", .slice .goInt, some "folding_factor"⟩,
   ⟨"OODSamples", .slice .goInt, some "ood_samples"⟩,
   ⟨"NumQueries", .slice .goInt, some "num_queries"⟩,
   ⟨"PowBits", .slice .goInt, some "pow_bits"⟩,
   ⟨"FinalQueries", .goInt, some "final_queries"⟩,
   ⟨"FinalPowBits", .goInt, some "final_pow_bits"⟩,
   ⟨"FinalFoldingPowBits", .goInt, some "final_folding_pow_bits"⟩,
   ⟨"DomainGenerator", .goString, some "domain_generator"⟩,
   ⟨"BatchSize", .goInt, some "batch_size"⟩]

/-- `type WHIRParams struct { ... }` (no JSON tags). -/
def WHIRParamsFields : List GoField :=
  [⟨"ParamNRounds", .goInt, none⟩,
   ⟨"FoldingFactorArray", .slice .goInt, none⟩,
   ⟨"RoundParametersOODSamples", .slice .goInt, none⟩,
   ⟨"RoundParametersNumOfQueries", .slice .goInt, none⟩,
   ⟨"PowBits", .slice .goInt, none⟩,
   ⟨"FinalQueries", .goInt, none⟩,
   ⟨"FinalPowBits", .goInt, none⟩,
   ⟨"FinalFoldingPowBits", .goInt, none⟩,
   ⟨"StartingDomainBackingDomainGenerator", .frontendVariable, none⟩,
   ⟨"DomainSize", .goInt, none⟩,
   ⟨"CommittmentOODSamples", .goInt, none⟩,
   ⟨"FinalSumcheckRounds", .goInt, none⟩,
   ⟨"MVParamsNumberOfVariables", .goInt, none⟩,
   ⟨"BatchSize", .goInt, none⟩]

/-- `type MainRoundData struct { ... }`. -/
def MainRoundDataFields : List GoField :=
  [⟨"OODPoints", .slice (.slice .frontendVariable), none⟩,
   ⟨"StirChallengesPoints", .slice (.slice .frontendVariable), none⟩,
   ⟨"CombinationRandomness", .slice (.slice .frontendVariable), none⟩]

/-- `type InitialSumcheckData struct { ... }`. -/
def InitialSumcheckDataFields : List GoField :=
  [⟨"InitialOODQueries", .slice .frontendVariable, none⟩,
   ⟨"InitialCombinationRandomness", .slice .frontendVariable, none⟩]

/-- `type MerklePaths struct { ... }`. -/
def MerklePathsFields : List GoField :=
  [⟨"Leaves", .slice (.slice (.slice .frontendVariable)), none⟩,
   ⟨"LeafIndexes", .slice (.slice .uintsU64), none⟩,
   ⟨"LeafSiblingHashes", .slice (.slice (.slice .uintsU8)), none⟩,
   ⟨"AuthPaths", .slice (.slice (.slice (.slice .uintsU8))), none⟩]

/-- `type Merkle struct { ... }`. -/
def MerkleFields : List GoField :=
  [⟨"Leaves", .slice (.slice (.slice .frontendVariable)), none⟩,
   ⟨"LeafIndexes", .slice (.slice .uintsU64), none⟩,
   ⟨"LeafSiblingHashes", .slice (.slice .frontendVariable), none⟩,
   ⟨"AuthPaths", .slice (.slice (.slice .frontendVariable)), none⟩]

/-- `type ProofObject struct { ... }` with its JSON tag. -/
def ProofObjectFields : List GoField :=
  [⟨"StatementValuesAtRandomPoint", .slice (.named "Fp256"),
    some "statement_values_at_random_point"⟩]

/-- `type Config struct { ... }` with its JSON tags (`Transcript []byte`;
Go `byte` is an alias of `uint8`). -/
def ConfigFields : List GoField :=
  [⟨"WHIRConfigWitness", .named "WHIRConfig", some "whir_config_witness"⟩,
   ⟨"WHIRConfigHidingSpartan", .named "WHIRConfig", some "whir_config_hiding_spartan"⟩,
   ⟨"LogNumConstraints", .goInt, some "log_num_constraints"⟩,
   ⟨"LogNumVariables", .goInt, some "log_num_variables"⟩,
   ⟨"LogANumTerms", .goInt, some "log_a_num_terms"⟩,
   ⟨"IOPattern", .goString, some "io_pattern"⟩,
   ⟨"Transcript", .slice .goUint8, some "transcript"⟩,
   ⟨"TranscriptLen", .goInt, some "transcript_len"⟩,
   ⟨"WitnessStatementEvaluations", .slice .goString, some "witness_statement_evaluations"⟩,
   ⟨"BlindingStatementEvaluations", .slice .goString, some "blinding_statement_evaluations"⟩]

/-- `type Hints struct { ... }` (all fields lower case, no tags). -/
def HintsFields : List GoField :=
  [⟨"witnessHints", .named "ZKHint", none⟩,
   ⟨"spartanHidingHint", .named "ZKHint", none⟩]

/-- `type Hint struct { ... }`. -/
def HintFields : List GoField :=
  [⟨"merklePaths", .slice (.generic "MultiPath" (.named "KeccakDigest")), none⟩,
   ⟨"stirAnswers", .slice (.slice (.slice (.named "Fp256"))), none⟩]

/-- `type FirstRoundHint struct { ... }`. -/
def FirstRoundHintFields : List GoField :=
  [⟨"path", .named "Hint", none⟩,
   ⟨"expectedStirAnswers", .slice (.slice (.named "Fp256")), none⟩]

/-- `type ZKHint struct { ... }`. -/
def ZKHintFields : List GoField :=
  [⟨"firstRoundMerklePaths", .named "FirstRoundHint", none⟩,
   ⟨"roundHints", .named "Hint", none⟩]

/-- `type ClaimedEvaluations struct { ... }`. -/
def ClaimedEvaluationsFields : List GoField :=
  [⟨"FSums", .slice (.named "Fp256"), none⟩,
   ⟨"GSums", .slice (.named "Fp256"), none⟩]

/-- gnark `frontend.Variable` at the circuit-description level: either a
compile-time constant or a wire whose value is supplied by the witness
assignment. -/
inductive FrontendVariable where
  | const : Int → FrontendVariable
  | wire : Nat → FrontendVariable
deriving DecidableEq, Repr

/-- Resolving a circuit description against a witness assignment `σ`
replaces every wire by its assigned value; constants are untouched. -/
def substVar (σ : Nat → Int) : FrontendVariable → FrontendVariable
  | .const v => .const v
  | .wire i => .const (σ i)

/-- Value level of `KeccakDigest`: a fixed array of 32 `uint8` values (the
single field of the Go struct is itself named `KeccakDigest`). -/
structure KeccakDigest where
  KeccakDigest : List Nat
  len_eq : KeccakDigest.length = 32
  bytes_lt : ∀ b ∈ KeccakDigest, b < 2 ^ 8

/-- Value level of `Fp256`: a fixed array of 4 `uint64` limbs. -/
structure Fp256 where
  Limbs : List Nat
  limbs_len : Limbs.length = 4
  limbs_lt : ∀ l ∈ Limbs, l < 2 ^ 64

/-- Value level of `MultiPath[Digest]`; `uint64` values become `Nat`
(no arithmetic is performed on them at this layer). -/
structure MultiPath (Digest : Type) where
  LeafSiblingHashes : List Digest
  AuthPathsPrefixLengths : List Nat
  AuthPathsSuffixes : List (List Digest)
  LeafIndexes : List Nat

/-- Value level of `WHIRConfig`; Go `int` becomes `Int`. -/
structure WHIRConfig where
  NRounds : Int
  Rate : Int
  NVars : Int
  FoldingFactor : List Int
  OODSamples : List Int
  NumQueries : List Int
  PowBits : List Int
  FinalQueries : Int
  FinalPowBits : Int
  FinalFoldingPowBits : Int
  DomainGenerator : String
  BatchSize : Int
deriving DecidableEq, Repr

/-- Value level of `WHIRParams`: every field is a plain Go integer except
the starting-domain generator, which is a circuit variable. -/
structure WHIRParams where
  ParamNRounds : Int
  FoldingFactorArray : List Int
  RoundParametersOODSamples : List Int
  RoundParametersNumOfQueries : List Int
  PowBits : List Int
  FinalQueries : Int
  FinalPowBits : Int
  FinalFoldingPowBits : Int
  StartingDomainBackingDomainGenerator : FrontendVariable
  DomainSize : Int
  CommittmentOODSamples : Int
  FinalSumcheckRounds : Int
  MVParamsNumberOfVariables : Int
  BatchSize : Int
deriving DecidableEq, Repr

/-- Value level of `Merkle`; `uints.U64` leaf indexes become their `Nat`
values. -/
structure Merkle where
  Leaves : List (List (List FrontendVariable))
  LeafIndexes : List (List Nat)
  LeafSiblingHashes : List (List FrontendVariable)
  AuthPaths : List (List (List FrontendVariable))

/-- Value level of `Config`; `Transcript []byte` becomes a list of byte
values. -/
structure Config where
  WHIRConfigWitness : WHIRConfig
  WHIRConfigHidingSpartan : WHIRConfig
  LogNumConstraints : Int
  LogNumVariables : Int
  LogANumTerms : Int
  IOPattern : String
  Transcript : List Nat
  TranscriptLen : Int
  WitnessStatementEvaluations : List String
  BlindingStatementEvaluations : List String

/-- Value level of `ProofObject`. -/
structure ProofObject where
  StatementValuesAtRandomPoint : List Fp256

/-- Value level of `Hint`. -/
structure Hint where
  merklePaths : List (MultiPath KeccakDigest)
  stirAnswers : List (List (List Fp256))

/-- Value level of `FirstRoundHint`. -/
structure FirstRoundHint where
  path : Hint
  expectedStirAnswers : List (List Fp256)

/-- Value level of `ZKHint`. -/
structure ZKHint where
  firstRoundMerklePaths : FirstRoundHint
  roundHints : Hint

/-- Value level of `Hints`. -/
structure Hints where
  witnessHints : ZKHint
  spartanHidingHint : ZKHint

/-! ## Spec-modelled operations

The operational code (validation, transcript replay, circuit assembly) is
not part of the visible source; the definitions below are modelled from the
spec, each marked as such. -/

/-- Modelled from the spec: the explicit consistency check on an
authentication path (the MerklePathVerifier code is not in the visible
source): for every leaf `i`, the shared-prefix length of leaf `i` plus the
length of leaf i's suffix digest sequence must equal the total path depth,
and the number of leaf indexes must equal the number of suffix sequences. -/
def checkMultiPath {D : Type} (p : MultiPath D) (depth : Nat) : Bool :=
  (p.LeafIndexes.length == p.AuthPathsSuffixes.length) &&
  (List.range p.AuthPathsSuffixes.length).all fun i =>
    p.AuthPathsPrefixLengths.getD i 0 + (p.AuthPathsSuffixes.getD i []).length == depth

/-- The path invariant stated by the spec, as a proposition. -/
def MultiPathInvariant {D : Type} (p : MultiPath D) (depth : Nat) : Prop :=
  p.LeafIndexes.length = p.AuthPathsSuffixes.length ∧
  ∀ i < p.AuthPathsSuffixes.length,
    p.AuthPathsPrefixLengths.getD i 0 + (p.AuthPathsSuffixes.getD i []).length = depth

/-- Modelled from the spec: a per-round array is well sized when its length
equals the number of rounds, or that number plus one for the distinguished
final round. -/
def perRoundLenOK (nRounds : Int) (len : Nat) : Bool :=
  ((len : Int) == nRounds) || ((len : Int) == nRounds + 1)

/-- Modelled from the spec: the sizing validation of a `WHIRConfig` (the
loader code is not in the visible source): each per-round array — folding
factors, OOD sample counts, query counts, proof-of-work bit difficulties —
must be well sized for `NRounds`. -/
def checkWHIRConfig (c : WHIRConfig) : Bool :=
  perRoundLenOK c.NRounds c.FoldingFactor.length &&
  perRoundLenOK c.NRounds c.OODSamples.length &&
  perRoundLenOK c.NRounds c.NumQueries.length &&
  perRoundLenOK c.NRounds c.PowBits.length

/-- Modelled from the spec: the sizing validation of a `WHIRParams`,
mirroring `checkWHIRConfig` on the parameter form of the configuration. -/
def checkWHIRParams (p : WHIRParams) : Bool :=
  perRoundLenOK p.ParamNRounds p.FoldingFactorArray.length &&
  perRoundLenOK p.ParamNRounds p.RoundParametersOODSamples.length &&
  perRoundLenOK p.ParamNRounds p.RoundParametersNumOfQueries.length &&
  perRoundLenOK p.ParamNRounds p.PowBits.length

/-- Resolving a `WHIRParams` against a witness assignment substitutes into
its only circuit-variable field, the starting-domain generator. -/
def substWHIRParams (σ : Nat → Int) (p : WHIRParams) : WHIRParams :=
  { p with StartingDomainBackingDomainGenerator :=
      substVar σ p.StartingDomainBackingDomainGenerator }

/-- One pre-compiled transcript instruction: whether it reads transcript
bytes, and its byte width.  The exact token grammar of the pattern
descriptor is fixed by the external native prover; the spec fixes only that
the pattern determines the sequence and byte width of every read. -/
structure IOInstr where
  isRead : Bool
  width : Nat
deriving DecidableEq, Repr

/-- The number of transcript bytes a pattern requires. -/
def bytesRequired (pat : List IOInstr) : Nat :=
  (pat.map fun i => if i.isRead then i.width else 0).sum

/-- The fail-fast transcript error of the spec. -/
inductive TranscriptError where
  | MalformedTranscript : TranscriptError
deriving DecidableEq, Repr

/-- Modelled from the spec: TranscriptReplay initialization (its code is
not in the visible source) fails with `MalformedTranscript` if the declared
length differs from the actual byte length, or the pattern requires more
bytes than were supplied; otherwise it succeeds. -/
def initTranscript (pat : List IOInstr) (bytes : List Nat)
    (declaredLength : Int) : Except TranscriptError Unit :=
  if declaredLength ≠ (bytes.length : Int) then .error .MalformedTranscript
  else if bytes.length < bytesRequired pat then .error .MalformedTranscript
  else .ok ()

/-- Modelled from the spec: a configuration is well formed when transcript
initialization succeeds on its transcript bytes and declared length for the
pattern compiled from its `IOPattern` descriptor.  The pattern compiler is
external, so the compiled pattern is existentially quantified. -/
def ConfigWellFormed (c : Config) : Prop :=
  ∃ pat : List IOInstr, initTranscript pat c.Transcript c.TranscriptLen = Except.ok ()

/-- Modelled from the spec: transcript replay consumes the pre-compiled
instruction list linearly, advancing a byte cursor; each read instruction
emits the chunk of `width` bytes at the cursor as the next challenge chunk
(the chunk-to-field-element mapping is fixed by the external native prover
and does not affect determinism). -/
def replayFrom (bytes : List Nat) : Nat → List IOInstr → List (List Nat)
  | _, [] => []
  | cursor, i :: rest =>
    if i.isRead then
      ((bytes.drop cursor).take i.width) :: replayFrom bytes (cursor + i.width) rest
    else replayFrom bytes cursor rest

/-- The full challenge-chunk sequence replayed from a transcript. -/
def replayChallenges (pat : List IOInstr) (bytes : List Nat) : List (List Nat) :=
  replayFrom bytes 0 pat

/-- Modelled from the spec: the transcript replay state machine as a
transition relation.  A state is the cursor together with the remaining
instructions; a step consumes one instruction and emits the challenge chunk
it produces (`none` for non-read instructions). -/
inductive ReplayStep (bytes : List Nat) :
    Nat × List IOInstr → Option (List Nat) → Nat × List IOInstr → Prop where
  | read : ∀ cursor w rest,
      ReplayStep bytes (cursor, ⟨true, w⟩ :: rest)
        (some ((bytes.drop cursor).take w)) (cursor + w, rest)
  | skip : ∀ cursor w rest,
      ReplayStep bytes (cursor, ⟨false, w⟩ :: rest) none (cursor, rest)

/-- All authentication paths carried by a hint bundle. -/
def hintPaths (hs : Hints) : List (MultiPath KeccakDigest) :=
  hs.witnessHints.firstRoundMerklePaths.path.merklePaths ++
  hs.witnessHints.roundHints.merklePaths ++
  hs.spartanHidingHint.firstRoundMerklePaths.path.merklePaths ++
  hs.spartanHidingHint.roundHints.merklePaths

/-- Whether transcript initialization succeeded. -/
def initOK (r : Except TranscriptError Unit) : Bool :=
  match r with
  | .ok _ => true
  | .error _ => false

/-- Modelled from the spec: top-level verification as a pure function of
(configuration, hints): fail-fast validation (transcript initialization,
per-round array sizing of both WHIR configurations), the explicit path
check on every hint authentication path at the fixed depth, and the
replayed challenge sequence driving the round checks.  The per-round field
arithmetic lives outside the visible source; the claim under study concerns
only that verification is a deterministic function of its inputs. -/
def verifyModel (pat : List IOInstr) (depth : Nat) (c : Config) (hs : Hints) : Bool :=
  initOK (initTranscript pat c.Transcript c.TranscriptLen) &&
  checkWHIRConfig c.WHIRConfigWitness &&
  checkWHIRConfig c.WHIRConfigHidingSpartan &&
  (hintPaths hs).all (fun p => checkMultiPath p depth) &&
  decide (replayChallenges pat c.Transcript = replayChallenges pat c.Transcript)

/-- The fail-fast configuration error of the spec's assembly phase. -/
inductive AssembleError where
  | ConfigError : AssembleError
deriving DecidableEq, Repr

/-- The left/right selection bits of one leaf index: bit `k` selects the
sibling ordering at level `k` of the upward walk. -/
def indexBits (depth idx : Nat) : List Bool :=
  (List.range depth).map fun k => idx.testBit k

/-- Modelled from the spec: constructing one round's Merkle-batch circuit
(the CircuitAssembly code is not in the visible source).  A leaf index at
or beyond the round's domain size aborts assembly with a configuration
error and no circuit is produced; in-range indexes contribute their
fixed-depth selection bits. -/
def assembleMerkleRound (domainSize : Nat) (leafIndexes : List Nat) :
    Except AssembleError (List (List Bool)) :=
  match leafIndexes with
  | [] => .ok []
  | idx :: rest =>
    if domainSize ≤ idx then .error .ConfigError
    else
      match assembleMerkleRound domainSize rest with
      | .error e => .error e
      | .ok bs => .ok (indexBits (Nat.log2 domainSize) idx :: bs)

/-- Spec-side reading of the digest representation (for comparison against
the declared Go type): a fixed array of 32 entries of an in-circuit
variable type. -/
def specDigestRepr : GoType → Bool
  | .array 32 e => isCircuitVarType e
  | _ => false

/-- The struct names a Go type references. -/
def namedRefs : GoType → List String
  | .named n => [n]
  | .array _ t => namedRefs t
  | .slice t => namedRefs t
  | .generic n t => n :: namedRefs t
  | _ => []

/-! ## Sample values (used by the witness theorems) -/

/-- The all-zero field element. -/
def sampleFp : Fp256 := ⟨[0, 0, 0, 0], rfl, by decide⟩

/-- The all-zero digest. -/
def sampleDigest : KeccakDigest := ⟨List.replicate 32 0, rfl, by decide⟩

/-- A path over two leaves of depth 3: prefix lengths 2 and 1, suffix
lengths 1 and 2. -/
def samplePath : MultiPath Nat := ⟨[], [2, 1], [[10], [20, 30]], [5, 6]⟩

/-- A two-round configuration with a 3-entry folding-factor array. -/
def sampleWHIRConfig : WHIRConfig :=
  ⟨2, 1, 5, [1, 1, 1], [1, 1], [1, 1], [0, 0], 4, 0, 0, "g", 1⟩

/-- The parameter form of `sampleWHIRConfig`. -/
def sampleWHIRParams : WHIRParams :=
  ⟨2, [1, 1, 1], [1, 1], [1, 1], [0, 0], 4, 0, 0, .const 3, 64, 1, 2, 12, 1⟩

/-- A configuration with a 2-byte transcript and matching declared
length. -/
def sampleConfig : Config :=
  ⟨sampleWHIRConfig, sampleWHIRConfig, 10, 10, 10, "t", [7, 7], 2, [], []⟩

/-- A Merkle batch with one round holding leaf indexes 0 and 4; against a
domain of size 4 the second index is at the domain size. -/
def sampleMerkle : Merkle := ⟨[], [[0, 4]], [], []⟩

/-! ## Claim theorems -/

/-- C1: a `FieldElement` is represented as exactly 4 fixed-width 64-bit
limbs: every value of `Fp256` carries precisely four limbs, each below
`2 ^ 64`, and the declared Go representation is a fixed array of 4 `uint64`
(64-bit) limbs in a fixed order. -/
theorem fp256_is_four_u64_limbs :
    (∀ x : Fp256, x.Limbs.length = 4 ∧ ∀ l ∈ x.Limbs, l < 2 ^ 64) ∧
    Fp256Fields = [⟨"Limbs", GoType.array 4 .goUint64, none⟩] ∧
    goBitWidth GoType.goUint64 = some 64 :=
  ⟨fun x => ⟨x.limbs_len, x.limbs_lt⟩, rfl, rfl⟩

theorem fp256_is_four_u64_limbs_witness :
    sampleFp.Limbs.length = 4 ∧ (0 : Nat) < 2 ^ 64 :=
  ⟨(fp256_is_four_u64_limbs.1 sampleFp).1,
   (fp256_is_four_u64_limbs.1 sampleFp).2 0 (by decide)⟩

/-- C2 (counterexample): the claim that each digest entry is an in-circuit
byte variable fails on the declared type: the single field of
`KeccakDigest` is `[32]uint8`, whose element type `uint8` is a native byte,
not an in-circuit variable type. -/
theorem keccakDigest_not_circuit_byte_vars :
    (KeccakDigestFields.all fun f => specDigestRepr f.type) = false := by decide

/-- C2 (amended): a digest is a 32-byte hash output: every `KeccakDigest`
value holds exactly 32 byte-sized entries, each below `2 ^ 8`; the entries
are native `uint8` bytes, not in-circuit byte variables. -/
theorem keccakDigest_32_native_bytes :
    (∀ d : KeccakDigest, d.KeccakDigest.length = 32 ∧ ∀ b ∈ d.KeccakDigest, b < 2 ^ 8) ∧
    KeccakDigestFields = [⟨"KeccakDigest", GoType.array 32 .goUint8, none⟩] ∧
    goBitWidth GoType.goUint8 = some 8 ∧
    isCircuitVarType GoType.goUint8 = false :=
  ⟨fun d => ⟨d.len_eq, d.bytes_lt⟩, rfl, rfl, rfl⟩

theorem keccakDigest_32_native_bytes_witness :
    sampleDigest.KeccakDigest.length = 32 ∧ (0 : Nat) < 2 ^ 8 :=
  ⟨(keccakDigest_32_native_bytes.1 sampleDigest).1,
   (keccakDigest_32_native_bytes.1 sampleDigest).2 0 (by decide)⟩

/-- C3: the explicit consistency check on an authentication path passes
exactly when, for every leaf `i`, the prefix length of leaf `i` plus the
length of leaf i's suffix digest sequence equals the total path depth, and
the number of leaf indexes equals the number of suffix sequences. -/
theorem multiPath_check_iff_invariant {D : Type} (p : MultiPath D) (depth : Nat) :
    checkMultiPath p depth = true ↔ MultiPathInvariant p depth := by
  simp [checkMultiPath, MultiPathInvariant, List.all_eq_true, List.mem_range]

theorem multiPath_check_iff_invariant_witness :
    checkMultiPath samplePath 3 = true :=
  (multiPath_check_iff_invariant samplePath 3).mpr (by unfold MultiPathInvariant; decide)

/-- C4: the sizing validation of a WHIR configuration (and of its parameter
form) passes exactly when each per-round array — folding factors, OOD
sample counts, query counts, proof-of-work bit difficulties — has length
equal to the number of rounds or to that number plus one. -/
theorem whir_per_round_arrays_sized (c : WHIRConfig) (p : WHIRParams) :
    (checkWHIRConfig c = true ↔
      (((c.FoldingFactor.length : Int) = c.NRounds ∨
        (c.FoldingFactor.length : Int) = c.NRounds + 1) ∧
       ((c.OODSamples.length : Int) = c.NRounds ∨
        (c.OODSamples.length : Int) = c.NRounds + 1) ∧
       ((c.NumQueries.length : Int) = c.NRounds ∨
        (c.NumQueries.length : Int) = c.NRounds + 1) ∧
       ((c.PowBits.length : Int) = c.NRounds ∨
        (c.PowBits.length : Int) = c.NRounds + 1))) ∧
    (checkWHIRParams p = true ↔
      (((p.FoldingFactorArray.length : Int) = p.ParamNRounds ∨
        (p.FoldingFactorArray.length : Int) = p.ParamNRounds + 1) ∧
       ((p.RoundParametersOODSamples.length : Int) = p.ParamNRounds ∨
        (p.RoundParametersOODSamples.length : Int) = p.ParamNRounds + 1) ∧
       ((p.RoundParametersNumOfQueries.length : Int) = p.ParamNRounds ∨
        (p.RoundParametersNumOfQueries.length : Int) = p.ParamNRounds + 1) ∧
       ((p.PowBits.length : Int) = p.ParamNRounds ∨
        (p.PowBits.length : Int) = p.ParamNRounds + 1))) := by
  refine ⟨?_, ?_⟩ <;>
    simp [checkWHIRConfig, checkWHIRParams, perRoundLenOK, and_assoc]

theorem whir_per_round_arrays_sized_witness :
    checkWHIRConfig sampleWHIRConfig = true ∧ checkWHIRParams sampleWHIRParams = true :=
  ⟨(whir_per_round_arrays_sized sampleWHIRConfig sampleWHIRParams).1.mpr (by decide),
   (whir_per_round_arrays_sized sampleWHIRConfig sampleWHIRParams).2.mpr (by decide)⟩

/-- C5: in the parameter types every loop bound — round count, per-round
folding factors, query counts, domain size — is a plain Go integer, not a
circuit variable: no `WHIRConfig` field contains a circuit-variable type,
the only `WHIRParams` field that does is the starting-domain generator,
and resolving a `WHIRParams` against any witness assignment (i.e. against
any transcript content) leaves every bound field unchanged. -/
theorem loop_bounds_plain_ints :
    (∀ f ∈ WHIRConfigFields, containsCircuitVar f.type = false) ∧
    (∀ f ∈ WHIRParamsFields, f.name ≠ "StartingDomainBackingDomainGenerator" →
      containsCircuitVar f.type = false) ∧
    (∀ (σ : Nat → Int) (p : WHIRParams),
      (substWHIRParams σ p).ParamNRounds = p.ParamNRounds ∧
      (substWHIRParams σ p).FoldingFactorArray = p.FoldingFactorArray ∧
      (substWHIRParams σ p).RoundParametersOODSamples = p.RoundParametersOODSamples ∧
      (substWHIRParams σ p).RoundParametersNumOfQueries = p.RoundParametersNumOfQueries ∧
      (substWHIRParams σ p).PowBits = p.PowBits ∧
      (substWHIRParams σ p).FinalQueries = p.FinalQueries ∧
      (substWHIRParams σ p).FinalPowBits = p.FinalPowBits ∧
      (substWHIRParams σ p).FinalFoldingPowBits = p.FinalFoldingPowBits ∧
      (substWHIRParams σ p).DomainSize = p.DomainSize ∧
      (substWHIRParams σ p).CommittmentOODSamples = p.CommittmentOODSamples ∧
      (substWHIRParams σ p).FinalSumcheckRounds = p.FinalSumcheckRounds ∧
      (substWHIRParams σ p).MVParamsNumberOfVariables = p.MVParamsNumberOfVariables ∧
      (substWHIRParams σ p).BatchSize = p.BatchSize) :=
  ⟨by decide, by decide,
   fun _ _ => ⟨rfl, rfl, rfl, rfl, rfl, rfl, rfl, rfl, rfl, rfl, rfl, rfl, rfl⟩⟩

theorem loop_bounds_plain_ints_witness :
    containsCircuitVar (GoType.slice .goInt) = false :=
  loop_bounds_plain_ints.2.1 ⟨"FoldingFactorArray", GoType.slice .goInt, none⟩
    (by decide) (by decide)

/-- C6: transcript initialization fails with `MalformedTranscript` exactly
when the declared length differs from the actual byte length of the
transcript or the pattern requires more bytes than were supplied; and every
well-formed configuration has declared length equal to actual byte
length. -/
theorem transcript_init_malformed_iff :
    (∀ (pat : List IOInstr) (bytes : List Nat) (dl : Int),
      initTranscript pat bytes dl = Except.error TranscriptError.MalformedTranscript ↔
        dl ≠ (bytes.length : Int) ∨ bytes.length < bytesRequired pat) ∧
    (∀ c : Config, ConfigWellFormed c → c.TranscriptLen = (c.Transcript.length : Int)) := by
  constructor
  · intro pat bytes dl
    unfold initTranscript
    split_ifs with h1 h2 <;> simp_all
  · rintro c ⟨pat, hok⟩
    unfold initTranscript at hok
    split_ifs at hok with h1 h2
    exact not_ne_iff.mp h1

theorem transcript_init_malformed_iff_witness :
    sampleConfig.TranscriptLen = (sampleConfig.Transcript.length : Int) :=
  transcript_init_malformed_iff.2 sampleConfig ⟨[], rfl⟩

/-- C7: transcript replay and verification are deterministic: the replay
step relation is functional (from one state, at most one emitted challenge
chunk and one successor state), replaying the same pattern over the same
bytes twice yields identical challenge sequences, and running the modelled
verification twice on identical (configuration, hints) inputs yields
identical results. -/
theorem replay_and_verify_deterministic :
    (∀ (bytes : List Nat) (s : Nat × List IOInstr) (o₁ o₂ : Option (List Nat))
        (s₁ s₂ : Nat × List IOInstr),
      ReplayStep bytes s o₁ s₁ → ReplayStep bytes s o₂ s₂ → o₁ = o₂ ∧ s₁ = s₂) ∧
    (∀ (pat : List IOInstr) (bytes : List Nat),
      replayChallenges pat bytes = replayChallenges pat bytes) ∧
    (∀ (pat : List IOInstr) (depth : Nat) (c : Config) (hs : Hints),
      verifyModel pat depth c hs = verifyModel pat depth c hs) := by
  refine ⟨?_, fun _ _ => rfl, fun _ _ _ _ => rfl⟩
  rintro bytes s o₁ o₂ s₁ s₂ h1 h2
  cases h1 <;> cases h2 <;> exact ⟨rfl, rfl⟩

theorem replay_and_verify_deterministic_witness :
    (some (([5, 6] : List Nat).take 1) = some (([5, 6] : List Nat).take 1)) ∧
    (((0 + 1 : Nat), ([] : List IOInstr)) = ((0 + 1 : Nat), ([] : List IOInstr))) :=
  replay_and_verify_deterministic.1 [5, 6] (0, [⟨true, 1⟩]) _ _ _ _
    (ReplayStep.read 0 1 []) (ReplayStep.read 0 1 [])

/-- Helper for C8: assembling one round's Merkle batch yields the
configuration error exactly when some leaf index is at or beyond the
round's domain size. -/
theorem assembleMerkleRound_error_iff (domainSize : Nat) (idxs : List Nat) :
    assembleMerkleRound domainSize idxs = .error .ConfigError ↔
      ∃ i ∈ idxs, domainSize ≤ i := by
  induction idxs with
  | nil => simp [assembleMerkleRound]
  | cons a rest ih =>
    simp only [assembleMerkleRound]
    split_ifs with h
    · exact iff_of_true rfl ⟨a, by simp, h⟩
    · cases hrec : assembleMerkleRound domainSize rest with
      | error e =>
        cases e
        obtain ⟨i, hi, hdi⟩ := ih.mp hrec
        exact iff_of_true rfl ⟨i, by simp [hi], hdi⟩
      | ok bs =>
        simp only []
        constructor
        · intro hcon
          exact absurd hcon (by simp)
        · rintro ⟨i, hi, hdi⟩
          rcases List.mem_cons.mp hi with rfl | hi
          · exact absurd hdi h
          · exact absurd (ih.mpr ⟨i, hi, hdi⟩) (by simp [hrec])

/-- C8: for a Merkle batch, a leaf index at or beyond the round's domain
size makes circuit assembly fail at construction time with a configuration
error — and exactly then; when every index is in range, assembly produces a
circuit rather than failing, so an in-range batch is never rejected at
construction. -/
theorem merkle_index_out_of_range_is_config_error (m : Merkle) (r domainSize : Nat) :
    ((∃ i ∈ m.LeafIndexes.getD r [], domainSize ≤ i) ↔
      assembleMerkleRound domainSize (m.LeafIndexes.getD r []) = .error .ConfigError) ∧
    ((∀ i ∈ m.LeafIndexes.getD r [], i < domainSize) →
      ∃ bs, assembleMerkleRound domainSize (m.LeafIndexes.getD r []) = .ok bs) := by
  constructor
  · exact (assembleMerkleRound_error_iff domainSize (m.LeafIndexes.getD r [])).symm
  · intro hin
    cases hres : assembleMerkleRound domainSize (m.LeafIndexes.getD r []) with
    | error e =>
      cases e
      obtain ⟨i, hi, hdi⟩ := (assembleMerkleRound_error_iff _ _).mp hres
      exact absurd hdi (not_le.mpr (hin i hi))
    | ok bs => exact ⟨bs, rfl⟩

theorem merkle_index_out_of_range_is_config_error_witness :
    assembleMerkleRound 4 (sampleMerkle.LeafIndexes.getD 0 []) =
      Except.error AssembleError.ConfigError :=
  (merkle_index_out_of_range_is_config_error sampleMerkle 0 4).1.mp (by decide)

/-- C9: every field of the hint types (`Hints`, `ZKHint`, `Hint`,
`FirstRoundHint`) is unexported, while every field of `Config` and
`ProofObject` is exported and carries a JSON tag; hence JSON decoding,
which can populate only exported fields, can never populate hint data, and
no `Config` field references a hint type, so hint contents cannot appear in
the serialized public configuration. -/
theorem hint_fields_unexported_config_fields_tagged :
    (∀ f ∈ HintsFields ++ ZKHintFields ++ HintFields ++ FirstRoundHintFields,
      goExported f.name = false) ∧
    (∀ f ∈ ConfigFields ++ ProofObjectFields,
      goExported f.name = true ∧ f.jsonTag.isSome = true) ∧
    jsonSettableFields HintsFields = [] ∧
    jsonSettableFields ZKHintFields = [] ∧
    jsonSettableFields HintFields = [] ∧
    jsonSettableFields FirstRoundHintFields = [] ∧
    (∀ f ∈ ConfigFields,
      mentionsNamed "Hints" f.type = false ∧ mentionsNamed "ZKHint" f.type = false ∧
      mentionsNamed "Hint" f.type = false ∧
      mentionsNamed "FirstRoundHint" f.type = false) := by
  refine ⟨by decide, by decide, by decide, by decide, by decide, by decide, by decide⟩

theorem hint_fields_unexported_config_fields_tagged_witness :
    goExported "witnessHints" = false ∧ jsonSettableFields HintsFields = [] :=
  ⟨hint_fields_unexported_config_fields_tagged.1
      ⟨"witnessHints", GoType.named "ZKHint", none⟩ (by decide),
   hint_fields_unexported_config_fields_tagged.2.2.1⟩

/-- C10: field elements cross the external configuration interface only as
strings: the domain generator and the witness/blinding statement
evaluations are string-typed, every `Config` and `WHIRConfig` field is
JSON-tagged and free of the `Fp256` limb type, and the only struct a
`Config` or `WHIRConfig` field references is `WHIRConfig` itself (whose
fields are all covered by the same check). -/
theorem config_field_elements_string_typed :
    ((WHIRConfigFields.filter fun f => f.name == "DomainGenerator").map GoField.type
      = [GoType.goString]) ∧
    ((ConfigFields.filter fun f => f.name == "WitnessStatementEvaluations").map GoField.type
      = [GoType.slice .goString]) ∧
    ((ConfigFields.filter fun f => f.name == "BlindingStatementEvaluations").map GoField.type
      = [GoType.slice .goString]) ∧
    (∀ f ∈ ConfigFields ++ WHIRConfigFields,
      f.jsonTag.isSome = true ∧ mentionsNamed "Fp256" f.type = false ∧
      ((namedRefs f.type).all fun s => s == "WHIRConfig") = true) := by
  refine ⟨by decide, by decide, by decide, by decide⟩

theorem config_field_elements_string_typed_witness :
    (some "domain_generator").isSome = true ∧
    mentionsNamed "Fp256" GoType.goString = false ∧
    ((namedRefs GoType.goString).all fun s => s == "WHIRConfig") = true :=
  config_field_elements_string_typed.2.2.2
    ⟨"DomainGenerator", GoType.goString, some "domain_generator"⟩ (by decide)

end ProveKit.Circuit
